import Mathlib

/-!
Verification of the actuator-mixing core declared in
libraries/AP_Motors/AP_MotorsHeli_Single.h (traditional single-rotor
helicopter motor class).

Modelling conventions: C++ float values are modelled as rationals (every
constant appearing in the header - 0.25, 1, -1, 0, 350, 1000, 10.0 - is
exactly representable, and the operations verified here are comparisons and
linear arithmetic, on which float and rational behaviour agree at these
points); AP_Int16 parameters are modelled as integers; AP_Float parameters
as rationals.  Where only the declaration of a member function is in the
header and its body lives in a compilation unit that is not available, the
definition below is modelled from the specification and its doc comment
says so explicitly.
-/

/-- Modelled from the spec: the logical output channel CH_7 comes from the
external SRV_Channel/RC channel header (channels are numbered CH_1 = 0
onward, so CH_7 is channel index 6); only its identity matters here. -/
def CH_7 : ℕ := 6

/-- Output channel used for the external gyro (header line 14). -/
def AP_MOTORS_HELI_SINGLE_EXTGYRO : ℕ := CH_7

/-- Output channel used for the tail rotor speed controller (header line 15). -/
def AP_MOTORS_HELI_SINGLE_TAILRSC : ℕ := CH_7

/-- Tail type 0: plain servo (header line 18). -/
def AP_MOTORS_HELI_SINGLE_TAILTYPE_SERVO : ℤ := 0

/-- Tail type 1: servo with external gyro (header line 19). -/
def AP_MOTORS_HELI_SINGLE_TAILTYPE_SERVO_EXTGYRO : ℤ := 1

/-- Tail type 2: direct drive variable pitch (header line 20). -/
def AP_MOTORS_HELI_SINGLE_TAILTYPE_DIRECTDRIVE_VARPITCH : ℤ := 2

/-- Tail type 3: direct drive fixed pitch clockwise (header line 21). -/
def AP_MOTORS_HELI_SINGLE_TAILTYPE_DIRECTDRIVE_FIXEDPITCH_CW : ℤ := 3

/-- Tail type 4: direct drive fixed pitch counter-clockwise (header line 22). -/
def AP_MOTORS_HELI_SINGLE_TAILTYPE_DIRECTDRIVE_FIXEDPITCH_CCW : ℤ := 4

/-- Tail type 5: direct drive variable pitch, external governor (header line 23). -/
def AP_MOTORS_HELI_SINGLE_TAILTYPE_DIRECTDRIVE_VARPIT_EXT_GOV : ℤ := 5

/-- Default direct-drive variable-pitch tail speed (header line 27). -/
def AP_MOTORS_HELI_SINGLE_DDVP_SPEED_DEFAULT : ℤ := 50

/-- Default external gyro gain (header line 30). -/
def AP_MOTORS_HELI_SINGLE_EXT_GYRO_GAIN : ℤ := 350

/-- COLYAW parameter magnitude bound, 10.0f (header line 33). -/
def AP_MOTORS_HELI_SINGLE_COLYAW_RANGE : ℚ := 10

/-- The fixed 4 x 3 feedforward allocation matrix Bn, exactly the in-class
initializer of member float Bn[4][3] (header lines 186-191). -/
def Bn : Fin 4 → Fin 3 → ℚ := ![![1, -1, 0], ![0, 1, -1], ![0, 0, 1], ![-1, 0, 0]]

/-- The fixed 4-element inverse-direction vector Bv_inv, exactly the
in-class initializer of member float Bv_inv[4] (header line 185). -/
def Bv_inv : Fin 4 → ℚ := ![1/4, 1/4, 1/4, 1/4]

/-- Modelled from the spec: the forward allocation of the Mixing Matrix
component, a pure linear map taking a 3-element virtual command vector to
the 4-element actuator command vector Bn * v.  The function itself is not
in the available source (only the constant Bn is, header lines 186-191). -/
def allocate (v : Fin 3 → ℚ) : Fin 4 → ℚ := fun i => ∑ j, Bn i j * v j

/-- Modelled from the spec: the reverse mapping given by the 4-element
inverse-direction vector Bv_inv, i.e. the Bv_inv-weighted combination (dot
product) of a 4-element actuator feedback vector.  The function itself is
not in the available source (only the constant Bv_inv is, header line 185). -/
def estimate_dot (u : Fin 4 → ℚ) : ℚ := ∑ i, Bv_inv i * u i

/-- supports_yaw_passthrough (header line 93): returns whether the
configured tail type equals the servo-with-external-gyro variant. -/
def supports_yaw_passthrough (tail_type : ℤ) : Bool :=
  tail_type == AP_MOTORS_HELI_SINGLE_TAILTYPE_SERVO_EXTGYRO

/-- rotor_speed_above_critical (header line 68): strict comparison of the
estimated rotor speed against the critical speed, both read from the main
rotor speed controller. -/
def rotor_speed_above_critical (rotor_speed critical_speed : ℚ) : Bool :=
  decide (critical_speed < rotor_speed)

/-- C++ conversion of a float value to int16_t at the call site of
AP_Int16 set: truncation toward zero (the guarded range keeps the value
well inside int16_t, so no overflow case arises). -/
def float_to_int16 (q : ℚ) : ℤ := if 0 ≤ q then ⌊q⌋ else ⌈q⌉

/-- ext_gyro_gain (header line 87): if (gain >= 0 && gain <= 1000) the
float gain is stored into the AP_Int16 parameter ext_gyro_gain_std,
otherwise the stored value is left unchanged.  Returns the new stored
value given the old one. -/
def ext_gyro_gain (gain : ℚ) (stored : ℤ) : ℤ :=
  if 0 ≤ gain ∧ gain ≤ 1000 then float_to_int16 gain else stored

/-- The configuration parameters of the class (header lines 146-151):
tail type, the two external gyro gains, the collective-yaw feed-forward
coefficient, the flybar flag and the direct-drive tail speed. -/
structure HeliConfig where
  tail_type : ℤ
  ext_gyro_gain_std : ℤ
  ext_gyro_gain_acro : ℤ
  collective_yaw_effect : ℚ
  flybar_mode : Bool
  direct_drive_tailspeed : ℤ

/-- The minimal valid default configuration: servo tail, the default gyro
gain 350 (header line 30) for both modes, zero collective-yaw coefficient,
no flybar, the default direct-drive tail speed 50 (header line 27). -/
def default_heli_config : HeliConfig where
  tail_type := AP_MOTORS_HELI_SINGLE_TAILTYPE_SERVO
  ext_gyro_gain_std := AP_MOTORS_HELI_SINGLE_EXT_GYRO_GAIN
  ext_gyro_gain_acro := AP_MOTORS_HELI_SINGLE_EXT_GYRO_GAIN
  collective_yaw_effect := 0
  flybar_mode := false
  direct_drive_tailspeed := AP_MOTORS_HELI_SINGLE_DDVP_SPEED_DEFAULT

/-- The hardware output channel the external gyro command is written to:
the preprocessor constant of header line 14, the same for every
configuration. -/
def extgyro_channel (_c : HeliConfig) : ℕ := AP_MOTORS_HELI_SINGLE_EXTGYRO

/-- The hardware output channel the tail rotor speed controller is bound
to by the constructor (header line 45): the preprocessor constant of
header line 15, the same for every configuration. -/
def tailrsc_channel (_c : HeliConfig) : ℕ := AP_MOTORS_HELI_SINGLE_TAILRSC

/-- A tail type value is recognized when it is one of the six enumerated
values 0..5 (header lines 18-23). -/
def tail_type_recognized (t : ℤ) : Bool := decide (0 ≤ t ∧ t ≤ 5)

/-- The external gyro gains are meaningful exactly for the
servo-with-external-gyro tail type (header lines 147-148 comments). -/
def uses_ext_gyro (t : ℤ) : Bool := t == AP_MOTORS_HELI_SINGLE_TAILTYPE_SERVO_EXTGYRO

/-- Modelled from the spec: the tail types that assume a flybarless head
are the direct-drive variants (values 2..5); combining the flybar flag
with one of them is the mutually-exclusive configuration the Safety
Validator flags. -/
def tail_assumes_no_flybar (t : ℤ) : Bool :=
  decide (AP_MOTORS_HELI_SINGLE_TAILTYPE_DIRECTDRIVE_VARPITCH ≤ t ∧ t ≤ 5)

/-- Modelled from the spec: the Safety Validator of parameter_check
(declared header line 98, body not in the available source).  Checks, in
order: the tail type is one of the enumerated valid values; both external
gyro gains lie in [0, 1000] when applicable (tail type uses an external
gyro); the direct-drive tail target speed lies in [0, 1000]; the
collective-yaw coefficient lies within the COLYAW range bound (header
line 33); flybar mode is not combined with a tail type that assumes no
flybar.  Returns the human-readable reason of the first failing check,
or none when the configuration is accepted. -/
def parameter_check_reason (c : HeliConfig) : Option String :=
  if ¬ (tail_type_recognized c.tail_type = true) then
    some ("invalid tail type")
  else if uses_ext_gyro c.tail_type = true ∧
      ¬ (0 ≤ c.ext_gyro_gain_std ∧ c.ext_gyro_gain_std ≤ 1000) then
    some ("ext gyro gain out of range")
  else if uses_ext_gyro c.tail_type = true ∧
      ¬ (0 ≤ c.ext_gyro_gain_acro ∧ c.ext_gyro_gain_acro ≤ 1000) then
    some ("acro ext gyro gain out of range")
  else if ¬ (0 ≤ c.direct_drive_tailspeed ∧ c.direct_drive_tailspeed ≤ 1000) then
    some ("tail speed out of range")
  else if ¬ (-AP_MOTORS_HELI_SINGLE_COLYAW_RANGE ≤ c.collective_yaw_effect ∧
      c.collective_yaw_effect ≤ AP_MOTORS_HELI_SINGLE_COLYAW_RANGE) then
    some ("collective yaw coefficient out of range")
  else if c.flybar_mode = true ∧ tail_assumes_no_flybar c.tail_type = true then
    some ("flybar incompatible with tail type")
  else
    none

/-- parameter_check (header line 98): true when every check passes.  The
display_msg argument only controls whether the reason is surfaced. -/
def parameter_check (c : HeliConfig) (_display_msg : Bool) : Bool :=
  (parameter_check_reason c).isNone

/-- The diagnostic text surfaced by parameter_check: the reason of the
first failing check when display_msg is set, nothing otherwise. -/
def parameter_check_msg (c : HeliConfig) (display_msg : Bool) : Option String :=
  if display_msg then parameter_check_reason c else none

/-- Modelled from the spec: the servo tail strategy invoked by move_yaw
(declared header line 116, body not in the available source) - the yaw
command maps directly (proportionally, unit gain) to the tail servo
output. -/
def move_yaw (yaw_out : ℚ) : ℚ := yaw_out

/-- Modelled from the spec: the collective-yaw feed-forward applied by
move_actuators - when the active tail type is collective-yaw-coupled, the
collective-yaw coefficient times the collective is added to the yaw
command before the tail strategy is invoked; otherwise the yaw command is
passed through unchanged. -/
def yaw_with_coupling (coupled : Bool) (coeff coll yaw : ℚ) : ℚ :=
  if coupled then yaw + coeff * coll else yaw

/-- The mutable per-cycle state of the class together with the two
mixing-matrix constant members (header lines 131-142 and 185-191).
Floats are modelled as rationals. -/
structure AP_MotorsHeli_Single where
  _oscillate_angle : ℚ
  _servo_test_cycle_time : ℚ
  _servo1_out : ℚ
  _servo2_out : ℚ
  _servo3_out : ℚ
  _servo4_out : ℚ
  _servo5_out : ℚ
  Bv_inv : Fin 4 → ℚ
  Bn : Fin 4 → Fin 3 → ℚ

/-- The state produced by the constructor (header lines 43-49): mutable
outputs at their 0.0f initializers, and the two mixing-matrix members at
their in-class initializers (header lines 185-191). -/
def AP_MotorsHeli_Single_construct : AP_MotorsHeli_Single where
  _oscillate_angle := 0
  _servo_test_cycle_time := 0
  _servo1_out := 0
  _servo2_out := 0
  _servo3_out := 0
  _servo4_out := 0
  _servo5_out := 0
  Bv_inv := Bv_inv
  Bn := Bn

/-- constrain_float of the math library: clamp a value into [lo, hi]. -/
def constrain_value (v lo hi : ℚ) : ℚ := max lo (min v hi)

/-- Modelled from the spec: move_actuators (declared header line 113, body
not in the available source).  The swashplate solver is an external
collaborator out of scope, modelled as a generic linear combination of
roll, pitch and collective feeding the three swash servo outputs; the yaw
command, with the collective-yaw feed-forward added first when the tail
type is coupled, goes through the tail strategy into servo 4. -/
def move_actuators_st (s : AP_MotorsHeli_Single) (coupled : Bool)
    (coeff roll_out pitch_out coll_in yaw_out : ℚ) : AP_MotorsHeli_Single :=
  { s with
    _servo1_out := coll_in + roll_out
    _servo2_out := coll_in - roll_out
    _servo3_out := coll_in + pitch_out
    _servo4_out := move_yaw (yaw_with_coupling coupled coeff coll_in yaw_out) }

/-- Modelled from the spec: output_to_motors (declared header line 56, body
not in the available source) clamps each pending servo output to its legal
normalized range before handing it to the output abstraction. -/
def output_to_motors_st (s : AP_MotorsHeli_Single) : AP_MotorsHeli_Single :=
  { s with
    _servo1_out := constrain_value s._servo1_out (-1) 1
    _servo2_out := constrain_value s._servo2_out (-1) 1
    _servo3_out := constrain_value s._servo3_out (-1) 1
    _servo4_out := constrain_value s._servo4_out (-1) 1
    _servo5_out := constrain_value s._servo5_out (-1) 1 }

/-- Modelled from the spec: servo_test (declared header line 119, body not
in the available source) advances the oscillation angle and the cycle time
tracker by the elapsed step and drives the outputs through a scripted
oscillation. -/
def servo_test_st (s : AP_MotorsHeli_Single) (dt : ℚ) : AP_MotorsHeli_Single :=
  { s with
    _oscillate_angle := s._oscillate_angle + dt
    _servo_test_cycle_time := s._servo_test_cycle_time + dt
    _servo4_out := constrain_value s._servo4_out (-1) 1 }

/-- Modelled from the spec: calculate_scalars (declared header line 77,
body not in the available source) recalculates collective range scalars
held in the base class; it touches none of the fields modelled here. -/
def calculate_scalars_st (s : AP_MotorsHeli_Single) : AP_MotorsHeli_Single := s

/-- The slow-start injector state (header lines 153-162: check_init and
time_div_startime): the time at which the ramp was enabled, or none while
the injector is disabled. -/
structure SlowStartState where
  start_time : Option ℚ

/-- Modelled from the spec: the slow-start ramp shaping function (fields
declared header lines 153-162, body not in the available source).  At
elapsed time t the offset rises linearly from the floor value toward the
full target over the configured duration, and holds the target from the
configured duration onward. -/
def slowstart_offset (floor_value target duration t : ℚ) : ℚ :=
  if duration ≤ t then target
  else floor_value + (target - floor_value) * t / duration

/-- Modelled from the spec: enabling the slow-start injector records the
enable time on the disabled-to-enabled transition only; enabling an
already-enabled injector does not restart the ramp. -/
def slowstart_enable (s : SlowStartState) (now : ℚ) : SlowStartState :=
  match s.start_time with
  | some t0 => ⟨some t0⟩
  | none => ⟨some now⟩

/-- Modelled from the spec: disabling the slow-start injector resets its
progress. -/
def slowstart_disable (_s : SlowStartState) : SlowStartState := ⟨none⟩

/-- Modelled from the spec: the current ramp offset - while enabled, the
shaping function evaluated at the time elapsed since enablement; while
disabled the ramp does not limit the command, so the full target passes. -/
def slowstart_value (s : SlowStartState) (floor_value target duration now : ℚ) : ℚ :=
  match s.start_time with
  | some t0 => slowstart_offset floor_value target duration (now - t0)
  | none => target

/-- C4: supports_yaw_passthrough returns true exactly when the configured
tail type is the servo-with-external-gyro variant (value 1), and returns
false for each of the other five enumerated tail type values. -/
theorem supports_yaw_passthrough_iff_servo_extgyro :
    (∀ tail_type : ℤ, supports_yaw_passthrough tail_type = true ↔
      tail_type = AP_MOTORS_HELI_SINGLE_TAILTYPE_SERVO_EXTGYRO) ∧
    supports_yaw_passthrough AP_MOTORS_HELI_SINGLE_TAILTYPE_SERVO = false ∧
    supports_yaw_passthrough AP_MOTORS_HELI_SINGLE_TAILTYPE_DIRECTDRIVE_VARPITCH = false ∧
    supports_yaw_passthrough AP_MOTORS_HELI_SINGLE_TAILTYPE_DIRECTDRIVE_FIXEDPITCH_CW = false ∧
    supports_yaw_passthrough AP_MOTORS_HELI_SINGLE_TAILTYPE_DIRECTDRIVE_FIXEDPITCH_CCW = false ∧
    supports_yaw_passthrough AP_MOTORS_HELI_SINGLE_TAILTYPE_DIRECTDRIVE_VARPIT_EXT_GOV = false := by
  refine ⟨fun t => ?_, by decide, by decide, by decide, by decide, by decide⟩
  simp [supports_yaw_passthrough]

/-- C9: the external-gyro output and the tail rotor-speed-controller
output are the same physical channel CH_7, so every configuration binds
both roles to the identical hardware channel. -/
theorem extgyro_tailrsc_same_channel :
    AP_MOTORS_HELI_SINGLE_EXTGYRO = AP_MOTORS_HELI_SINGLE_TAILRSC ∧
    AP_MOTORS_HELI_SINGLE_EXTGYRO = CH_7 ∧
    ∀ c c' : HeliConfig, extgyro_channel c = tailrsc_channel c' :=
  ⟨rfl, rfl, fun _ _ => rfl⟩

/-- C10: rotor_speed_above_critical returns true exactly when the
estimated main rotor speed is strictly greater than the critical speed;
at exact equality it returns false. -/
theorem rotor_speed_above_critical_iff :
    ∀ rotor_speed critical_speed : ℚ,
      (rotor_speed_above_critical rotor_speed critical_speed = true ↔
        critical_speed < rotor_speed) ∧
      (rotor_speed = critical_speed →
        rotor_speed_above_critical rotor_speed critical_speed = false) := by
  intro s c
  constructor
  · simp [rotor_speed_above_critical]
  · rintro rfl
    simp [rotor_speed_above_critical]

/-- C10 witness: at rotor speed 1 equal to critical speed 1, the check
returns false. -/
theorem rotor_speed_above_critical_iff_witness :
    rotor_speed_above_critical 1 1 = false :=
  (rotor_speed_above_critical_iff 1 1).2 rfl

/-- C2 counterexample: the in-range input 1/2 passes the guard, but the
value stored into the AP_Int16 parameter is the truncation 0, not exactly
1/2. -/
theorem ext_gyro_gain_fraction_not_stored_exactly :
    ext_gyro_gain (1/2) 350 = 0 ∧ ((0 : ℚ) ≠ 1/2) := by
  constructor
  · rw [ext_gyro_gain, if_pos (by norm_num), float_to_int16, if_pos (by norm_num)]
    norm_num [Int.floor_eq_iff]
  · norm_num

/-- C2 amended: an input outside [0, 1000] leaves the stored gain
unchanged; an input inside [0, 1000] is stored truncated to the AP_Int16
parameter, so exactly the integral inputs of [0, 1000], the endpoints 0
and 1000 included, are stored exactly. -/
theorem ext_gyro_gain_guard_and_store :
    ∀ (g : ℚ) (stored : ℤ),
      ((g < 0 ∨ 1000 < g) → ext_gyro_gain g stored = stored) ∧
      (0 ≤ g → g ≤ 1000 → ext_gyro_gain g stored = ⌊g⌋) ∧
      (∀ n : ℤ, 0 ≤ n → n ≤ 1000 → ext_gyro_gain (n : ℚ) stored = n) := by
  intro g stored
  refine ⟨fun h => ?_, fun h0 h1 => ?_, fun n hn0 hn1 => ?_⟩
  · rw [ext_gyro_gain, if_neg]
    rcases h with h | h
    · exact fun hc => absurd hc.1 (not_le.mpr h)
    · exact fun hc => absurd hc.2 (not_le.mpr h)
  · rw [ext_gyro_gain, if_pos ⟨h0, h1⟩, float_to_int16, if_pos h0]
  · rw [ext_gyro_gain, if_pos, float_to_int16, if_pos (by exact_mod_cast hn0)]
    · exact Int.floor_intCast n
    · constructor
      · exact_mod_cast hn0
      · exact_mod_cast hn1

/-- C2 witness: the endpoint input 1000 is in range and is stored exactly. -/
theorem ext_gyro_gain_guard_and_store_witness :
    ext_gyro_gain ((1000 : ℤ) : ℚ) 350 = 1000 :=
  (ext_gyro_gain_guard_and_store ((1000 : ℤ) : ℚ) 350).2.2 1000 (by decide) (by decide)

/-- C3 counterexample: the out-of-range input 1200 with stored gain 350
leaves 350 stored; the stored gain does not become the clamped value
1000. -/
theorem ext_gyro_gain_1200_not_clamped :
    ext_gyro_gain 1200 350 = 350 ∧ (350 : ℤ) ≠ 1000 := by
  constructor
  · rw [ext_gyro_gain, if_neg]
    intro hc
    exact absurd hc.2 (by norm_num)
  · decide

/-- C3 amended: the setter does not clamp - every input outside [0, 1000],
above 1000 or below 0, leaves the stored gain unchanged (silently
ignored). -/
theorem ext_gyro_gain_no_clamping :
    ∀ (g : ℚ) (stored : ℤ), (1000 < g ∨ g < 0) → ext_gyro_gain g stored = stored := by
  intro g stored h
  rw [ext_gyro_gain, if_neg]
  rcases h with h | h
  · exact fun hc => absurd hc.2 (not_le.mpr h)
  · exact fun hc => absurd hc.1 (not_le.mpr h)

/-- C3 amended witness: input 1200 leaves a stored gain of 42 unchanged. -/
theorem ext_gyro_gain_no_clamping_witness :
    ext_gyro_gain 1200 42 = 42 :=
  ext_gyro_gain_no_clamping 1200 42 (Or.inl (by norm_num))

/-- C1 counterexample: no reverse mapping built on the Bv_inv-weighted
combination can recover the virtual command vector - the weighted
combination of every forward allocation is 0 (each column of Bn sums to
zero), so any post-processing g sends the allocation of the zero command
and of the all-ones command to the same estimate, yet the two commands
differ. -/
theorem Bv_inv_not_left_inverse_of_Bn :
    ¬ ∃ g : ℚ → (Fin 3 → ℚ), ∀ v : Fin 3 → ℚ,
      g (estimate_dot (allocate v)) = v := by
  rintro ⟨g, h⟩
  have h0 := h (fun _ => 0)
  have h1 := h (fun _ => 1)
  have e0 : estimate_dot (allocate (fun _ => 0)) = 0 := by
    simp [estimate_dot, allocate, Bn, Bv_inv, Fin.sum_univ_succ]
  have e1 : estimate_dot (allocate (fun _ => 1)) = 0 := by
    simp [estimate_dot, allocate, Bn, Bv_inv, Fin.sum_univ_succ]
  rw [e0] at h0
  rw [e1] at h1
  have hcontra := congrFun (h0.symm.trans h1) 0
  norm_num at hcontra

/-- C1 amended: the Bv_inv reverse direction annihilates the range of the
allocation matrix - the Bv_inv-weighted estimate of allocate v equals 0
for every 3-element virtual command v, so the round trip returns 0 rather
than v and the residual error equals v itself; Bv_inv is not a left
pseudo-inverse of Bn. -/
theorem estimate_dot_allocate_eq_zero :
    ∀ v : Fin 3 → ℚ, estimate_dot (allocate v) = 0 := by
  intro v
  simp [estimate_dot, allocate, Bn, Bv_inv, Fin.sum_univ_succ]
  ring

/-- C5: for a fixed yaw command, a collective increment d changes the tail
servo output by exactly the collective-yaw coefficient times d when the
tail type is collective-yaw-coupled, the coupling term being added to the
yaw command before the tail strategy is invoked; for an uncoupled tail
type a collective change has zero effect on the tail output. -/
theorem move_actuators_collective_yaw_coupling :
    ∀ (s : AP_MotorsHeli_Single) (coeff roll_out pitch_out coll_in yaw_out d : ℚ),
      ((move_actuators_st s true coeff roll_out pitch_out (coll_in + d) yaw_out)._servo4_out -
        (move_actuators_st s true coeff roll_out pitch_out coll_in yaw_out)._servo4_out =
          coeff * d) ∧
      ((move_actuators_st s false coeff roll_out pitch_out (coll_in + d) yaw_out)._servo4_out -
        (move_actuators_st s false coeff roll_out pitch_out coll_in yaw_out)._servo4_out = 0) ∧
      ((move_actuators_st s true coeff roll_out pitch_out coll_in yaw_out)._servo4_out =
        move_yaw (yaw_out + coeff * coll_in)) := by
  intro s coeff r p coll yaw d
  refine ⟨?_, ?_, ?_⟩
  · simp [move_actuators_st, move_yaw, yaw_with_coupling]
    ring
  · simp [move_actuators_st, move_yaw, yaw_with_coupling]
  · simp [move_actuators_st, move_yaw, yaw_with_coupling]

/-- C7: from construction on, the members Bn and Bv_inv hold exactly the
fixed 4 x 3 allocation matrix and the fixed 4-element inverse-direction
vector of their in-class initializers, and every modelled operation of
the class leaves both unchanged. -/
theorem mixing_matrix_constants_immutable :
    (AP_MotorsHeli_Single_construct.Bn = Bn ∧
      AP_MotorsHeli_Single_construct.Bv_inv = Bv_inv) ∧
    (∀ (s : AP_MotorsHeli_Single) (coupled : Bool) (coeff r p coll yaw : ℚ),
      (move_actuators_st s coupled coeff r p coll yaw).Bn = s.Bn ∧
      (move_actuators_st s coupled coeff r p coll yaw).Bv_inv = s.Bv_inv) ∧
    (∀ s : AP_MotorsHeli_Single,
      (output_to_motors_st s).Bn = s.Bn ∧ (output_to_motors_st s).Bv_inv = s.Bv_inv) ∧
    (∀ (s : AP_MotorsHeli_Single) (dt : ℚ),
      (servo_test_st s dt).Bn = s.Bn ∧ (servo_test_st s dt).Bv_inv = s.Bv_inv) ∧
    (∀ s : AP_MotorsHeli_Single,
      (calculate_scalars_st s).Bn = s.Bn ∧ (calculate_scalars_st s).Bv_inv = s.Bv_inv) :=
  ⟨⟨rfl, rfl⟩, fun _ _ _ _ _ _ _ => ⟨rfl, rfl⟩, fun _ => ⟨rfl, rfl⟩,
    fun _ _ => ⟨rfl, rfl⟩, fun _ => ⟨rfl, rfl⟩⟩

/-- C6: at elapsed time 0 the slow-start ramp offset equals the floor
value; at elapsed time equal to the configured duration it equals exactly
the full target; it is monotonically non-decreasing over nonnegative
elapsed times; enabling an already-enabled injector does not restart the
ramp; and after a disable and re-enable the offset restarts from the
floor value. -/
theorem slowstart_ramp_properties :
    ∀ floor_value target duration : ℚ, 0 < duration → floor_value ≤ target →
      (slowstart_offset floor_value target duration 0 = floor_value) ∧
      (slowstart_offset floor_value target duration duration = target) ∧
      (∀ t1 t2 : ℚ, 0 ≤ t1 → t1 ≤ t2 →
        slowstart_offset floor_value target duration t1 ≤
          slowstart_offset floor_value target duration t2) ∧
      (∀ t0 now : ℚ, slowstart_enable ⟨some t0⟩ now = ⟨some t0⟩) ∧
      (∀ (s : SlowStartState) (now : ℚ),
        slowstart_value (slowstart_enable (slowstart_disable s) now)
          floor_value target duration now = floor_value) := by
  intro f tgt dur hdur hft
  have hzero : slowstart_offset f tgt dur 0 = f := by
    rw [slowstart_offset, if_neg (by linarith)]
    simp
  refine ⟨hzero, ?_, ?_, ?_, ?_⟩
  · rw [slowstart_offset, if_pos le_rfl]
  · intro t1 t2 ht1 h12
    rw [slowstart_offset, slowstart_offset]
    by_cases h1 : dur ≤ t1
    · rw [if_pos h1, if_pos (le_trans h1 h12)]
    · rw [if_neg h1]
      by_cases h2 : dur ≤ t2
      · rw [if_pos h2, mul_div_assoc]
        have hd1 : t1 / dur ≤ 1 := by
          rw [div_le_one hdur]
          linarith
        have hmul : (tgt - f) * (t1 / dur) ≤ (tgt - f) * 1 :=
          mul_le_mul_of_nonneg_left hd1 (by linarith)
        linarith
      · rw [if_neg h2]
        have hnum : (tgt - f) * t1 ≤ (tgt - f) * t2 :=
          mul_le_mul_of_nonneg_left h12 (by linarith)
        have hdiv : (tgt - f) * t1 / dur ≤ (tgt - f) * t2 / dur :=
          div_le_div_of_nonneg_right hnum hdur.le
        linarith
  · intro t0 now
    rfl
  · intro s now
    show slowstart_offset f tgt dur (now - now) = f
    rw [sub_self]
    exact hzero

/-- C6 witness: with floor 1, target 10 and duration 4, the ramp offset is
1 at elapsed time 0 and exactly 10 at elapsed time 4. -/
theorem slowstart_ramp_properties_witness :
    slowstart_offset 1 10 4 0 = 1 ∧ slowstart_offset 1 10 4 4 = 10 := by
  have h := slowstart_ramp_properties 1 10 4 (by norm_num) (by norm_num)
  exact ⟨h.1, h.2.1⟩

/-- C8: parameter_check accepts the minimal valid default configuration;
it rejects a configuration with external gyro gain 1200, a configuration
with the unrecognized tail type value 7, and a configuration combining
flybar mode with an incompatible (direct-drive) tail type; for each
rejection a human-readable reason is surfaced when display_msg is set. -/
theorem parameter_check_cases :
    parameter_check default_heli_config true = true ∧
    (parameter_check { default_heli_config with
        tail_type := AP_MOTORS_HELI_SINGLE_TAILTYPE_SERVO_EXTGYRO,
        ext_gyro_gain_std := 1200 } true = false ∧
      (parameter_check_msg { default_heli_config with
        tail_type := AP_MOTORS_HELI_SINGLE_TAILTYPE_SERVO_EXTGYRO,
        ext_gyro_gain_std := 1200 } true).isSome = true) ∧
    (parameter_check { default_heli_config with tail_type := 7 } true = false ∧
      (parameter_check_msg { default_heli_config with
        tail_type := 7 } true).isSome = true) ∧
    (parameter_check { default_heli_config with
        flybar_mode := true,
        tail_type := AP_MOTORS_HELI_SINGLE_TAILTYPE_DIRECTDRIVE_VARPITCH } true = false ∧
      (parameter_check_msg { default_heli_config with
        flybar_mode := true,
        tail_type := AP_MOTORS_HELI_SINGLE_TAILTYPE_DIRECTDRIVE_VARPITCH } true).isSome = true) := by
  refine ⟨?_, ⟨?_, ?_⟩, ⟨?_, ?_⟩, ⟨?_, ?_⟩⟩ <;>
    norm_num [parameter_check, parameter_check_msg, parameter_check_reason,
      default_heli_config, tail_type_recognized, uses_ext_gyro,
      tail_assumes_no_flybar, AP_MOTORS_HELI_SINGLE_COLYAW_RANGE,
      AP_MOTORS_HELI_SINGLE_TAILTYPE_SERVO,
      AP_MOTORS_HELI_SINGLE_TAILTYPE_SERVO_EXTGYRO,
      AP_MOTORS_HELI_SINGLE_TAILTYPE_DIRECTDRIVE_VARPITCH,
      AP_MOTORS_HELI_SINGLE_EXT_GYRO_GAIN,
      AP_MOTORS_HELI_SINGLE_DDVP_SPEED_DEFAULT]
